import Mathlib

/-! Shallow embedding of the connection-resolution core of the Databricks
VSCode extension (`src/connections/DatabricksConnectionManagerVSCode.ts`) and
of the cluster-deletion confirmation guard
(`src/vscode/treeviews/clusters/DatabricksCluster.ts`), together with theorems
checking the specification claims C1-C10 against this code.

Conventions of the embedding:
- JavaScript values that may be `undefined` are modelled as `Option`; JS `==`
  between such values coincides with equality of the corresponding `Option`s.
- Exceptions are modelled with `Except`; since `activateConnection` is an
  `async` method, a `throw` inside it surfaces as a rejected promise, which the
  model represents as an `Except.error` result value.
- The mutable manager object and the VSCode configuration stores are threaded
  explicitly as `ManagerState` and `Store` values.
- Apostrophes inside message strings are written with the escape \x27.
-/

set_option autoImplicit false

namespace Databricks

/-- Mirror of the `iDatabricksConnection` interface restricted to the fields the
excerpt reads.  Every field is optional because the corresponding VSCode
settings may be absent (JS `undefined`). -/
structure iDatabricksConnection where
  displayName : Option String
  cloudProvider : Option String
  apiRootUrl : Option String
  personalAccessToken : Option String
  localSyncFolder : Option String
  exportFormats : Option String
  useCodeCells : Option Bool
  personalAccessTokenSecure : Option String
deriving DecidableEq

/-- Modelled from the spec: `DatabricksConnection.validate` is not part of the
excerpted sources; spec section 3 defines a record as valid iff its displayName
is non-empty and apiRootUrl and the credential are present. -/
def validate (c : iDatabricksConnection) : Bool :=
  decide (c.displayName ≠ none) && decide (c.displayName ≠ some "") &&
    decide (c.apiRootUrl ≠ none) && decide (c.personalAccessToken ≠ none)

/-- Mirror of `iWorkspaceConfiguration` (the per-project ProjectConfig record):
a workspace guid and the name of the last active connection, both possibly
unset. -/
structure iWorkspaceConfiguration where
  workspaceGuid : Option String
  lastActiveConnection : Option String
deriving DecidableEq

/-- Mirror of `iUserWorkspaceConfiguration`: one entry of the global
`databricks.userWorkspaceConfigurations` list. -/
structure iUserWorkspaceConfiguration where
  workspaceConfig : iWorkspaceConfiguration
  connections : List iDatabricksConnection
deriving DecidableEq

/-- The configuration store as read and written by the excerpt: the
project-local settings `databricks.workspaceConfiguration`,
`databricks.connections` and the `databricks.connection.default.*` block, and
the global setting `databricks.userWorkspaceConfigurations` (an ordered list,
per spec section 6). -/
structure Store where
  workspaceConfiguration : Option iWorkspaceConfiguration
  connections : Option (List iDatabricksConnection)
  defaultDisplayName : Option String
  defaultCloudProvider : Option String
  defaultApiRootUrl : Option String
  defaultPersonalAccessToken : Option String
  defaultLocalSyncFolder : Option String
  defaultExportFormats : Option String
  defaultUseCodeCells : Option Bool
  userWorkspaceConfigurations : List iUserWorkspaceConfiguration
deriving DecidableEq

/-- In-memory state of `DatabricksConnectionManagerVSCode`: `_workspaceConfig`,
`_connections`, `_activeConnection` and `_initialized`. -/
structure ManagerState where
  workspaceConfig : Option iWorkspaceConfiguration
  connections : List iDatabricksConnection
  activeConnection : Option iDatabricksConnection
  initialized : Bool
deriving DecidableEq

/-- Manager state at the start of the constructor (line 16 sets
`_initialized = false`; the other fields are not yet assigned). -/
def initialManagerState : ManagerState :=
  { workspaceConfig := none, connections := [], activeConnection := none,
    initialized := false }

/-- Errors raised by the modelled code: JS runtime TypeErrors from property
access on `undefined`, the duplicate-workspaceGuid corruption error of line
202, and the not-found error of line 256. -/
inductive JsError where
  | typeError (msg : String)
  | duplicateWorkspaceGuid
  | connectionNotFound (displayName : Option String)
deriving DecidableEq

/-- JS coercion of a possibly-undefined string to a string, as performed by the
`+` concatenation on line 254. -/
def jsStr : Option String → String
  | none => "undefined"
  | some s => s

/-- Message text of each modelled error, taken verbatim from the source (lines
202 and 254). -/
def errorMessage : JsError → String
  | .typeError m => m
  | .duplicateWorkspaceGuid =>
      "There is an error in your User Workspace Configurations (\x27databricks.userWorkspaceConfigurations\x27). Please make sure all \x27workspaceGuid\x27 are unique!"
  | .connectionNotFound d =>
      "Connection with name  \x27" ++ jsStr d ++ "\x27 could not be found!"

/-- Lines 90-106 `getConnectionsFromWorkspace`: read `databricks.connections`
(empty when the setting is absent) and keep only records passing validation. -/
def getConnectionsFromWorkspace (s : Store) : List iDatabricksConnection :=
  match s.connections with
  | none => []
  | some cons => cons.filter validate

/-- Lines 108-129 `getDefaultConnectionFromWorkspace`: assemble one record from
the `databricks.connection.default.*` settings; return null (`none`) when the
displayName is missing or empty or validation fails. -/
def getDefaultConnectionFromWorkspace (s : Store) : Option iDatabricksConnection :=
  let con : iDatabricksConnection :=
    { displayName := s.defaultDisplayName
      cloudProvider := s.defaultCloudProvider
      apiRootUrl := s.defaultApiRootUrl
      personalAccessToken := s.defaultPersonalAccessToken
      localSyncFolder := s.defaultLocalSyncFolder
      exportFormats := s.defaultExportFormats
      useCodeCells := s.defaultUseCodeCells
      personalAccessTokenSecure := none }
  if con.displayName = none ∨ con.displayName = some "" ∨ validate con = false then none
  else some con

/-- Lines 53-56: when the ProjectConfig record exists but its `workspaceGuid`
is unset, a freshly generated guid is assigned in memory.  (The case where the
record itself is absent is handled in `loadConnections` below, where the source
raises a TypeError.) -/
def effectiveWorkspaceConfig (w : iWorkspaceConfiguration) (freshGuid : String) :
    iWorkspaceConfiguration :=
  if w.workspaceGuid = none then { w with workspaceGuid := some freshGuid } else w

/-- Line 193: the global entries whose `workspaceConfig.workspaceGuid` equals
the current workspace guid. -/
def matchingGlobalConfigs (s : Store) (wc : iWorkspaceConfiguration) :
    List iUserWorkspaceConfiguration :=
  s.userWorkspaceConfigurations.filter
    (fun x => decide (x.workspaceConfig.workspaceGuid = wc.workspaceGuid))

/-- Lines 190-203 `CurrentUserWorkspaceConfiguration`: exactly one matching
global entry is returned, zero matches yield `undefined` (`none`), and more
than one match throws the duplicate-guid corruption error. -/
def CurrentUserWorkspaceConfiguration (s : Store) (wc : iWorkspaceConfiguration) :
    Except JsError (Option iUserWorkspaceConfiguration) :=
  match matchingGlobalConfigs s wc with
  | [x] => .ok (some x)
  | [] => .ok none
  | _ => .error .duplicateWorkspaceGuid

/-- Lines 131-149 `getConnectionsFromGlobalConfig`: the validated connections
of the current global entry, or the empty list when there is none. -/
def getConnectionsFromGlobalConfig (s : Store) (wc : iWorkspaceConfiguration) :
    Except JsError (List iDatabricksConnection) :=
  match CurrentUserWorkspaceConfiguration s wc with
  | .error e => .error e
  | .ok none => .ok []
  | .ok (some cfg) => .ok (cfg.connections.filter validate)

/-- Lines 77-79: append the default-block record to the workspace list unless
its displayName is already present there. -/
def mergeWithDefault (l1 : List iDatabricksConnection)
    (d : Option iDatabricksConnection) : List iDatabricksConnection :=
  match d with
  | none => l1
  | some dc =>
      if dc.displayName ∈ l1.map (fun x => x.displayName) then l1 else l1 ++ [dc]

/-- Lines 77-83: the full merge.  After the default record is (possibly)
appended, the global-store records whose displayName is not yet present are
concatenated at the end. -/
def mergeConnections (l1 : List iDatabricksConnection)
    (d : Option iDatabricksConnection) (l3 : List iDatabricksConnection) :
    List iDatabricksConnection :=
  let withDefault := mergeWithDefault l1 d
  withDefault ++
    l3.filter (fun x => decide (x.displayName ∉ withDefault.map (fun y => y.displayName)))

/-- Lines 177-182 `CurrentWorkspaceConfiguration`: the global entry written for
this workspace. -/
def CurrentWorkspaceConfiguration (wc : iWorkspaceConfiguration)
    (conns : List iDatabricksConnection) : iUserWorkspaceConfiguration :=
  { workspaceConfig := wc, connections := conns }

/-- Lines 205-231 `updateUserWorkspaceConfig`, store effect: upsert the global
entry for the current guid (filter out the old entry, append the new one) and
clear the project-local `databricks.connections` setting (line 154) and the
`databricks.connection.default.*` block (lines 158-170).  The operation ORDER
and the missing await of the global write are modelled separately by
`updateUserWorkspaceConfigOps` below. -/
def updateUserWorkspaceConfigStore (s : Store) (wc : iWorkspaceConfiguration)
    (conns : List iDatabricksConnection) : Store :=
  let updatedGlobalWorkspaceConfigs :=
    (s.userWorkspaceConfigurations.filter
      (fun x => decide (x.workspaceConfig.workspaceGuid ≠ wc.workspaceGuid))) ++
    [CurrentWorkspaceConfiguration wc conns]
  { s with
      userWorkspaceConfigurations := updatedGlobalWorkspaceConfigs
      connections := none
      defaultDisplayName := none
      defaultCloudProvider := none
      defaultApiRootUrl := none
      defaultPersonalAccessToken := none
      defaultLocalSyncFolder := none
      defaultExportFormats := none
      defaultUseCodeCells := none }

/-- Message of the TypeError raised by line 55 when
`databricks.workspaceConfiguration` is absent: the guard on line 53 tests the
value for `undefined` and then line 55 assigns a property on that same
`undefined` value. -/
def typeErrorGuidMsg : String :=
  "TypeError: Cannot set properties of undefined (setting \x27workspaceGuid\x27)"

/-- Message of the TypeError raised by reading `lastActiveConnection` on an
`undefined` `_workspaceConfig` (line 26 or line 238). -/
def typeErrorLastActiveMsg : String :=
  "TypeError: Cannot read properties of undefined (reading \x27lastActiveConnection\x27)"

/-- Lines 40-88 `loadConnections`.  Returns the thrown error (if any), the
manager state after the call, and the store after the call.  Fresh guid
generation (`Helper.newGuid`, line 55) is passed in as a parameter.  Faithful
error behaviour: when the ProjectConfig record is absent, line 55 raises a
TypeError; when the global lookup throws (line 74), `_connections` has already
been assigned the workspace list (line 59) but no store write has happened. -/
def loadConnections (mgr : ManagerState) (s : Store) (freshGuid : String) :
    Except JsError Unit × ManagerState × Store :=
  match s.workspaceConfiguration with
  | none =>
      (.error (.typeError typeErrorGuidMsg), { mgr with workspaceConfig := none }, s)
  | some w =>
      let wc := effectiveWorkspaceConfig w freshGuid
      let l1 := getConnectionsFromWorkspace s
      let d := getDefaultConnectionFromWorkspace s
      match getConnectionsFromGlobalConfig s wc with
      | .error e =>
          (.error e, { mgr with workspaceConfig := some wc, connections := l1 }, s)
      | .ok l3 =>
          let canonical := mergeConnections l1 d l3
          let mgr2 := { mgr with workspaceConfig := some wc,
                                 connections := canonical, initialized := true }
          (.ok (), mgr2, updateUserWorkspaceConfigStore s wc canonical)

deriving instance DecidableEq for Except

/-- Result of one `activateConnection` call (lines 233-258): the returned or
rejected value, the manager and store afterwards, the record passed to
`DatabricksApiService.initialize` (line 240) if any, and whether the code-cell
regular expression setting was set (`some true`) or cleared (`some false`) by
lines 244-249. -/
structure ActivateResult where
  result : Except JsError iDatabricksConnection
  mgr : ManagerState
  store : Store
  apiInitialized : Option iDatabricksConnection
  codeCellsRegexSet : Option Bool
deriving DecidableEq

/-- Lines 233-258 `activateConnection`.  The parameter is `Option String`
because the construction path can pass an `undefined` name through.  With
exactly one match the record becomes active, `lastActiveConnection` is set and
persisted via `updateWorkspaceConfig` (line 242), and the API service is
initialized with the record; otherwise the not-found error is thrown (as the
method is `async`, the model returns it as an error value).  When
`_workspaceConfig` is `undefined`, line 237 has already set the active
connection before line 238 raises a TypeError. -/
def activateConnection (mgr : ManagerState) (s : Store) (target : Option String) :
    ActivateResult :=
  match mgr.connections.filter (fun x => decide (x.displayName = target)) with
  | [c] =>
      match mgr.workspaceConfig with
      | none =>
          { result := .error (.typeError typeErrorLastActiveMsg),
            mgr := { mgr with activeConnection := some c }, store := s,
            apiInitialized := none, codeCellsRegexSet := none }
      | some wc =>
          let wc2 := { wc with lastActiveConnection := target }
          { result := .ok c,
            mgr := { mgr with activeConnection := some c, workspaceConfig := some wc2 },
            store := { s with workspaceConfiguration := some wc2 },
            apiInitialized := some c,
            codeCellsRegexSet := some (decide (c.useCodeCells = some true)) }
  | _ =>
      { result := .error (.connectionNotFound target), mgr := mgr, store := s,
        apiInitialized := none, codeCellsRegexSet := none }

/-- Result of running the constructor (lines 14-38): final manager and store,
whether the no-connections warning was shown (lines 20-24), and whether an
activation rejection went unhandled. -/
structure ConstructResult where
  mgr : ManagerState
  store : Store
  warnedNoConnections : Bool
  unhandledRejection : Bool
deriving DecidableEq

/-- Lines 14-38, the constructor.  `loadConnections` exceptions propagate out.
With a non-empty list, an unset `lastActiveConnection` is first set to the
first connection name (lines 26-28).  The call to `activateConnection` on line
30 is a call of an `async` method: its body runs synchronously (there is no
await inside), but a `throw` in it produces a REJECTED PROMISE, not a
synchronous exception, so the `catch` on line 31 never runs and the fallback
activation on line 34 is unreachable; a rejection is simply unhandled. -/
def constructorRun (s : Store) (freshGuid : String) : Except JsError ConstructResult :=
  match loadConnections initialManagerState s freshGuid with
  | (.error e, _, _) => .error e
  | (.ok _, mgr, s1) =>
      match mgr.connections with
      | [] =>
          .ok { mgr := mgr, store := s1, warnedNoConnections := true,
                unhandledRejection := false }
      | c0 :: _ =>
          match mgr.workspaceConfig with
          | none => .error (.typeError typeErrorLastActiveMsg)
          | some wc =>
              let wc1 :=
                if wc.lastActiveConnection = none then
                  { wc with lastActiveConnection := c0.displayName }
                else wc
              let mgr1 := { mgr with workspaceConfig := some wc1 }
              let r := activateConnection mgr1 s1 wc1.lastActiveConnection
              .ok { mgr := r.mgr, store := r.store, warnedNoConnections := false,
                    unhandledRejection :=
                      match r.result with
                      | .ok _ => false
                      | .error _ => true }

/-- Scope of a VSCode configuration update. -/
inductive ConfigScope where
  | workspace
  | global
deriving DecidableEq

/-- One configuration-store operation issued by the persistence step: starting
an update of a key, or awaiting the completion of a previously started
update. -/
inductive ConfigOp where
  | initiateUpdate (key : String) (scope : ConfigScope)
  | awaitUpdate (key : String)
deriving DecidableEq

/-- Line 154 `cleanConnectionsFromConfig`: one project-local update call. -/
def cleanConnectionsFromConfigOps : List ConfigOp :=
  [ .initiateUpdate "databricks.connections" .workspace ]

/-- Lines 157-171 `cleanDefaultConnectionFromConfig`: eleven project-local
update calls, in source order. -/
def cleanDefaultConnectionFromConfigOps : List ConfigOp :=
  [ .initiateUpdate "databricks.connection.default.displayName" .workspace
  , .initiateUpdate "databricks.connection.default.cloudProvider" .workspace
  , .initiateUpdate "databricks.connection.default.apiRootUrl" .workspace
  , .initiateUpdate "databricks.connection.default.personalAccessToken" .workspace
  , .initiateUpdate "databricks.connection.default.localSyncFolder" .workspace
  , .initiateUpdate "databricks.connection.default.databricksConnectJars" .workspace
  , .initiateUpdate "databricks.connection.default.pythonInterpreter" .workspace
  , .initiateUpdate "databricks.connection.default.port" .workspace
  , .initiateUpdate "databricks.connection.default.organizationId" .workspace
  , .initiateUpdate "databricks.connection.default.exportFormats" .workspace
  , .initiateUpdate "databricks.connection.default.useCodeCells" .workspace ]

/-- Lines 205-231 `updateUserWorkspaceConfig`, operation order: the global
write is initiated on line 223; line 224 only attaches a logging continuation
to the returned promise and nothing awaits it (the method is not `async`);
lines 229-230 then immediately issue the project-local clears.  No
`awaitUpdate` operation occurs anywhere in the method. -/
def updateUserWorkspaceConfigOps : List ConfigOp :=
  .initiateUpdate "databricks.userWorkspaceConfigurations" .global ::
    (cleanConnectionsFromConfigOps ++ cleanDefaultConnectionFromConfigOps)

/-- Follows the words of claim C8: scanning the operation trace left to right,
every project-local update (a clear) must be preceded by an awaited completion
of the global-store write. -/
def clearedOnlyAfterGlobalWriteCompleted (seen : Bool) : List ConfigOp → Bool
  | [] => true
  | .awaitUpdate k :: rest =>
      clearedOnlyAfterGlobalWriteCompleted
        (seen || k == "databricks.userWorkspaceConfigurations") rest
  | .initiateUpdate _ .workspace :: rest =>
      seen && clearedOnlyAfterGlobalWriteCompleted seen rest
  | .initiateUpdate _ .global :: rest =>
      clearedOnlyAfterGlobalWriteCompleted seen rest

/-- Recognises an `awaitUpdate` operation. -/
def isAwaitOp : ConfigOp → Bool
  | .awaitUpdate _ => true
  | .initiateUpdate _ _ => false

/-- Recognises a project-local (workspace-scope) update operation. -/
def isWorkspaceClearOp : ConfigOp → Bool
  | .initiateUpdate _ .workspace => true
  | _ => false

/-- Outcome of `DatabricksCluster.delete`: whether the remote delete API was
invoked, and whether the abort message was logged. -/
structure DeleteResult where
  apiCalled : Bool
  abortLogged : Bool
deriving DecidableEq

/-- Lines 193-204 of `DatabricksCluster.ts`, `delete`: the user input `confirm`
is `none` when the input box is cancelled.  The JS guard `!confirm` is true for
a cancelled input and for the empty string, and `confirm != this.name` aborts
on any non-matching input; only otherwise is `deleteCluster` called. -/
def clusterDelete (name : String) (confirm : Option String) : DeleteResult :=
  if confirm = none ∨ confirm = some "" ∨ confirm ≠ some name then
    { apiCalled := false, abortLogged := true }
  else
    { apiCalled := true, abortLogged := false }

/-- A valid connection record used by the concrete test stores. -/
def conAlpha : iDatabricksConnection :=
  { displayName := some "Alpha", cloudProvider := some "Azure",
    apiRootUrl := some "https://adb-1.azuredatabricks.net",
    personalAccessToken := some "patA", localSyncFolder := some "/sync/alpha",
    exportFormats := none, useCodeCells := some true,
    personalAccessTokenSecure := none }

/-- A second valid record with the SAME displayName as `conAlpha` but different
field values. -/
def conAlphaVariant : iDatabricksConnection :=
  { conAlpha with apiRootUrl := some "https://adb-2.azuredatabricks.net",
                  useCodeCells := some false }

/-- A valid record with displayName Beta. -/
def conBeta : iDatabricksConnection :=
  { displayName := some "Beta", cloudProvider := some "AWS",
    apiRootUrl := some "https://dbc-3.cloud.databricks.com",
    personalAccessToken := some "patB", localSyncFolder := some "/sync/beta",
    exportFormats := none, useCodeCells := none,
    personalAccessTokenSecure := none }

/-- A store with every setting absent and an empty global list. -/
def baseStore : Store :=
  { workspaceConfiguration := none, connections := none,
    defaultDisplayName := none, defaultCloudProvider := none,
    defaultApiRootUrl := none, defaultPersonalAccessToken := none,
    defaultLocalSyncFolder := none, defaultExportFormats := none,
    defaultUseCodeCells := none, userWorkspaceConfigurations := [] }

/-- A store whose ProjectConfig record exists but has no guid yet. -/
def guidlessStore : Store :=
  { baseStore with
      workspaceConfiguration :=
        some { workspaceGuid := none, lastActiveConnection := none } }

/-- C6: the claim says that with the ProjectConfig record absent, or present
with its guid unset, loadConnections generates a fresh guid and completes
without error.  The code satisfies only the second half: with the record
absent, line 53 detects `undefined` but line 55 then assigns a property on
that `undefined` value, raising a TypeError, so the load crashes instead of
completing.  With the record present and the guid unset, the fresh guid is
generated and the load completes. -/
theorem C6_missing_projectConfig_crash :
    (loadConnections initialManagerState baseStore "guid-fresh").1 =
      .error (.typeError typeErrorGuidMsg) ∧
    (loadConnections initialManagerState guidlessStore "guid-fresh").1 = .ok () ∧
    (loadConnections initialManagerState guidlessStore "guid-fresh").2.1.workspaceConfig =
      some { workspaceGuid := some "guid-fresh", lastActiveConnection := none } := by
  decide

/-- A store for C9: one valid connection named Alpha, but the recorded
lastActiveConnection names a connection that does not exist. -/
def ghostLastActiveStore : Store :=
  { baseStore with
      workspaceConfiguration :=
        some { workspaceGuid := some "guid-1", lastActiveConnection := some "Ghost" },
      connections := some [conAlpha] }

/-- C9: the claim says the constructor catches a failed activation of the
recorded last-active connection and falls back to the first connection.  In
the code, `activateConnection` is an `async` method, so its throw on line 256
surfaces as a rejected promise; the synchronous try/catch on lines 29-35
cannot catch a promise rejection, the fallback on line 34 never runs, and
construction ends with a non-empty canonical list but NO active connection and
an unhandled rejection. -/
theorem C9_async_rejection_skips_fallback :
    (constructorRun ghostLastActiveStore "fresh").toOption.map
        (fun r => (r.mgr.connections.length, r.mgr.activeConnection,
                   r.unhandledRejection)) =
      some (1, none, true) := by
  decide

/-- C8: counterexample — the claim says the global-store write completes before
the project-local clears.  The operation trace of `updateUserWorkspaceConfig`
contains twelve project-local clear operations and no await of the global
write at all, so the trace violates the claim predicate. -/
theorem C8_clears_without_await_counterexample :
    clearedOnlyAfterGlobalWriteCompleted false updateUserWorkspaceConfigOps = false ∧
    (updateUserWorkspaceConfigOps.filter isWorkspaceClearOp).length = 12 := by
  decide

/-- C8 (amended): the global-store write is INITIATED (program order) before
any project-local clear is issued, but its completion is never awaited — the
trace holds no await operation — so the clears proceed while the write may
still be pending or may fail. -/
theorem C8_write_initiated_before_clears :
    updateUserWorkspaceConfigOps.head? =
      some (.initiateUpdate "databricks.userWorkspaceConfigurations" .global) ∧
    updateUserWorkspaceConfigOps.tail.all isWorkspaceClearOp = true ∧
    updateUserWorkspaceConfigOps.all (fun op => !isAwaitOp op) = true := by
  decide

/-- A store for the C1 counterexample: two valid project-local records share the
displayName Alpha. -/
def dupNameStore : Store :=
  { baseStore with
      workspaceConfiguration :=
        some { workspaceGuid := some "guid-1", lastActiveConnection := none },
      connections := some [conAlpha, conAlphaVariant] }

/-- C1: counterexample — two valid project-local records sharing the
displayName Alpha both survive the merge (lines 77-83 de-duplicate only
ACROSS sources, never within one source), so the canonical list produced by
loadConnections contains two records with the same displayName, contradicting
the uniqueness part of the claim. -/
theorem C1_duplicate_names_counterexample :
    validate conAlpha = true ∧ validate conAlphaVariant = true ∧
    (loadConnections initialManagerState dupNameStore "fresh").1 = .ok () ∧
    ¬ (((loadConnections initialManagerState dupNameStore "fresh").2.1.connections.map
        (fun c => c.displayName)).Nodup) := by
  decide

/-- A store for the C7 counterexample: one valid connection, ProjectConfig
present but its guid not yet generated. -/
def freshGuidStore : Store :=
  { baseStore with
      workspaceConfiguration :=
        some { workspaceGuid := none, lastActiveConnection := none },
      connections := some [conAlpha] }

/-- C7: counterexample — loadConnections persists a freshly generated guid
only inside the global entry (line 87), never into the project-local
ProjectConfig setting (that write, `updateWorkspaceConfig`, happens only in
`activateConnection`).  A second run therefore re-reads a guid-less
ProjectConfig, generates a DIFFERENT fresh guid, finds no matching global
entry, and yields the empty canonical list instead of the
one-element list of the first run. -/
theorem C7_reload_counterexample :
    (loadConnections initialManagerState freshGuidStore "guid-a").1 = .ok () ∧
    (loadConnections initialManagerState freshGuidStore "guid-a").2.1.connections =
      [conAlpha] ∧
    (loadConnections initialManagerState
        ((loadConnections initialManagerState freshGuidStore "guid-a").2.2)
        "guid-b").1 = .ok () ∧
    (loadConnections initialManagerState
        ((loadConnections initialManagerState freshGuidStore "guid-a").2.2)
        "guid-b").2.1.connections = [] := by
  decide

/-- C10: counterexample — the claim states the remote delete API is called if
and only if the confirmation equals the cluster name.  For a cluster whose
name is the empty string and a confirmation equal to that name, the JS guard
`!confirm` aborts anyway, so the iff fails. -/
theorem C10_empty_name_counterexample :
    ¬ (((clusterDelete "" (some "")).apiCalled = true) ↔
        (some "" : Option String) = some ( "" : String)) := by
  decide

/-- Unfolding lemma: when the ProjectConfig record is present and the global
lookup succeeds with list `l3`, `loadConnections` succeeds and produces the
merged canonical list and the updated store. -/
theorem loadConnections_ok (mgr : ManagerState) (s : Store) (g : String)
    (w : iWorkspaceConfiguration) (l3 : List iDatabricksConnection)
    (hw : s.workspaceConfiguration = some w)
    (hg : getConnectionsFromGlobalConfig s (effectiveWorkspaceConfig w g) = .ok l3) :
    loadConnections mgr s g =
      (.ok (),
        { mgr with workspaceConfig := some (effectiveWorkspaceConfig w g),
                   connections := mergeConnections (getConnectionsFromWorkspace s)
                     (getDefaultConnectionFromWorkspace s) l3,
                   initialized := true },
        updateUserWorkspaceConfigStore s (effectiveWorkspaceConfig w g)
          (mergeConnections (getConnectionsFromWorkspace s)
            (getDefaultConnectionFromWorkspace s) l3)) := by
  unfold loadConnections
  rw [hw]
  simp only [hg]

/-- Unfolding lemma: when the ProjectConfig record is present but the global
lookup throws, `loadConnections` rethrows, `_connections` holds the workspace
list, and the store is untouched. -/
theorem loadConnections_globalErr (mgr : ManagerState) (s : Store) (g : String)
    (w : iWorkspaceConfiguration) (e : JsError)
    (hw : s.workspaceConfiguration = some w)
    (hg : getConnectionsFromGlobalConfig s (effectiveWorkspaceConfig w g) = .error e) :
    loadConnections mgr s g =
      (.error e,
        { mgr with workspaceConfig := some (effectiveWorkspaceConfig w g),
                   connections := getConnectionsFromWorkspace s },
        s) := by
  unfold loadConnections
  rw [hw]
  simp only [hg]

/-- When the guid is already set, the fresh guid is not used. -/
theorem effectiveWorkspaceConfig_of_set (w : iWorkspaceConfiguration)
    (gid g : String) (hgid : w.workspaceGuid = some gid) :
    effectiveWorkspaceConfig w g = w := by
  unfold effectiveWorkspaceConfig
  rw [hgid]
  simp

/-- Every record returned by `getConnectionsFromWorkspace` passed validation. -/
theorem getConnectionsFromWorkspace_validate {s : Store} {c : iDatabricksConnection}
    (h : c ∈ getConnectionsFromWorkspace s) : validate c = true := by
  unfold getConnectionsFromWorkspace at h
  cases hs : s.connections with
  | none => rw [hs] at h; cases h
  | some cons => rw [hs] at h; exact (List.mem_filter.mp h).2

/-- A default-block record is only returned when it passed validation. -/
theorem getDefaultConnectionFromWorkspace_validate {s : Store}
    {c : iDatabricksConnection} (h : getDefaultConnectionFromWorkspace s = some c) :
    validate c = true := by
  simp only [getDefaultConnectionFromWorkspace] at h
  split at h
  · cases h
  next hcond =>
    push_neg at hcond
    obtain ⟨-, -, h3⟩ := hcond
    obtain rfl := Option.some.inj h
    exact Bool.ne_false_iff.mp h3

/-- Every record returned by the global lookup passed validation. -/
theorem getConnectionsFromGlobalConfig_validate {s : Store}
    {wc : iWorkspaceConfiguration} {l3 : List iDatabricksConnection}
    {c : iDatabricksConnection}
    (hg : getConnectionsFromGlobalConfig s wc = .ok l3) (h : c ∈ l3) :
    validate c = true := by
  unfold getConnectionsFromGlobalConfig at hg
  cases hcur : CurrentUserWorkspaceConfiguration s wc with
  | error e => rw [hcur] at hg; cases hg
  | ok o =>
    cases o with
    | none =>
        rw [hcur] at hg
        cases hg
        cases h
    | some cfg =>
        rw [hcur] at hg
        cases hg
        exact (List.mem_filter.mp h).2

/-- Unfolding lemma for `mergeWithDefault` with no default record. -/
theorem mergeWithDefault_none (l1 : List iDatabricksConnection) :
    mergeWithDefault l1 none = l1 := rfl

/-- Unfolding lemma for `mergeWithDefault` with a default record. -/
theorem mergeWithDefault_some (l1 : List iDatabricksConnection)
    (dc : iDatabricksConnection) :
    mergeWithDefault l1 (some dc) =
      if dc.displayName ∈ l1.map (fun x => x.displayName) then l1
      else l1 ++ [dc] := rfl

/-- A record of the list merged with the default comes from the list or is the
default record. -/
theorem mem_mergeWithDefault {l1 : List iDatabricksConnection}
    {d : Option iDatabricksConnection} {c : iDatabricksConnection}
    (h : c ∈ mergeWithDefault l1 d) : c ∈ l1 ∨ d = some c := by
  cases d with
  | none => rw [mergeWithDefault_none] at h; exact Or.inl h
  | some dc =>
      rw [mergeWithDefault_some] at h
      by_cases hmem : dc.displayName ∈ l1.map (fun x => x.displayName)
      · rw [if_pos hmem] at h; exact Or.inl h
      · rw [if_neg hmem] at h
        rcases List.mem_append.mp h with h | h
        · exact Or.inl h
        · exact Or.inr (by rw [List.mem_singleton.mp h])

/-- Every record in the merged canonical list passed validation. -/
theorem mergeConnections_validate {s : Store} {wc : iWorkspaceConfiguration}
    {l3 : List iDatabricksConnection} {c : iDatabricksConnection}
    (hg : getConnectionsFromGlobalConfig s wc = .ok l3)
    (hc : c ∈ mergeConnections (getConnectionsFromWorkspace s)
        (getDefaultConnectionFromWorkspace s) l3) : validate c = true := by
  simp only [mergeConnections] at hc
  rcases List.mem_append.mp hc with h | h
  · rcases mem_mergeWithDefault h with h | h
    · exact getConnectionsFromWorkspace_validate h
    · exact getDefaultConnectionFromWorkspace_validate h
  · exact getConnectionsFromGlobalConfig_validate hg (List.mem_filter.mp h).1

/-- Merging the empty workspace list and no default with a list keeps the list
unchanged. -/
theorem mergeConnections_nil_none (l : List iDatabricksConnection) :
    mergeConnections [] none l = l := by
  unfold mergeConnections mergeWithDefault
  simp

/-- C3: when exactly one record in the canonical list carries the requested
displayName (case-sensitive, exact), activateConnection makes that record the
active connection, records the name as lastActiveConnection in the project
configuration, persists the project configuration to the project-local store,
and passes the activated record to the remote API client. -/
theorem C3_activate_unique_match (mgr : ManagerState) (s : Store)
    (wc : iWorkspaceConfiguration) (X : String) (c : iDatabricksConnection)
    (_hinit : mgr.initialized = true)
    (hwc : mgr.workspaceConfig = some wc)
    (huniq : mgr.connections.filter (fun x => decide (x.displayName = some X)) = [c]) :
    activateConnection mgr s (some X) =
      { result := .ok c,
        mgr := { mgr with activeConnection := some c,
                          workspaceConfig :=
                            some { wc with lastActiveConnection := some X } },
        store := { s with workspaceConfiguration :=
                            some { wc with lastActiveConnection := some X } },
        apiInitialized := some c,
        codeCellsRegexSet := some (decide (c.useCodeCells = some true)) } := by
  unfold activateConnection
  rw [huniq, hwc]

/-- C3 witness: a one-connection manager for Alpha. -/
def c3Manager : ManagerState :=
  { workspaceConfig :=
      some { workspaceGuid := some "guid-1", lastActiveConnection := none },
    connections := [conAlpha], activeConnection := none, initialized := true }

/-- C3 witness: activating Alpha on `c3Manager` behaves as C3 states. -/
theorem C3_activate_unique_match_witness :
    c3Manager.initialized = true ∧
    c3Manager.workspaceConfig =
      some { workspaceGuid := some "guid-1", lastActiveConnection := none } ∧
    c3Manager.connections.filter
      (fun x => decide (x.displayName = some "Alpha")) = [conAlpha] ∧
    activateConnection c3Manager baseStore (some "Alpha") =
      { result := .ok conAlpha,
        mgr := { c3Manager with
                   activeConnection := some conAlpha,
                   workspaceConfig :=
                     some { workspaceGuid := some "guid-1",
                            lastActiveConnection := some "Alpha" } },
        store := { baseStore with
                     workspaceConfiguration :=
                       some { workspaceGuid := some "guid-1",
                              lastActiveConnection := some "Alpha" } },
        apiInitialized := some conAlpha,
        codeCellsRegexSet := some true } :=
  ⟨rfl, rfl, by decide,
    C3_activate_unique_match c3Manager baseStore
      { workspaceGuid := some "guid-1", lastActiveConnection := none }
      "Alpha" conAlpha rfl rfl (by decide)⟩

/-- C4: when zero or more than one record matches the requested displayName,
activateConnection rejects with the not-found error, whose message contains
the requested name; the manager state (in particular the previously active
connection and lastActiveConnection) and the store are unchanged, and the API
client is not re-initialized. -/
theorem C4_activate_no_match (mgr : ManagerState) (s : Store) (X : String)
    (h : (mgr.connections.filter
        (fun x => decide (x.displayName = some X))).length ≠ 1) :
    activateConnection mgr s (some X) =
      { result := .error (.connectionNotFound (some X)), mgr := mgr, store := s,
        apiInitialized := none, codeCellsRegexSet := none } ∧
    X.data <:+: (errorMessage (.connectionNotFound (some X))).data := by
  constructor
  · unfold activateConnection
    cases hf : mgr.connections.filter (fun x => decide (x.displayName = some X)) with
    | nil => rfl
    | cons a t =>
        cases t with
        | nil => exact absurd (by rw [hf]; rfl) h
        | cons b t2 => rfl
  · have hmsg : errorMessage (.connectionNotFound (some X)) =
        "Connection with name  \x27" ++ X ++ "\x27 could not be found!" := rfl
    rw [hmsg, String.data_append, String.data_append]
    exact List.infix_append _ _ _

/-- C4 witness: a manager holding only Alpha rejects activating Ghost and is
left unchanged. -/
theorem C4_activate_no_match_witness :
    (c3Manager.connections.filter
      (fun x => decide (x.displayName = some "Ghost"))).length ≠ 1 ∧
    (activateConnection c3Manager baseStore (some "Ghost") =
      { result := .error (.connectionNotFound (some "Ghost")), mgr := c3Manager,
        store := baseStore, apiInitialized := none, codeCellsRegexSet := none } ∧
    ( "Ghost" : String).data <:+:
      (errorMessage (.connectionNotFound (some "Ghost"))).data) :=
  ⟨by decide, C4_activate_no_match c3Manager baseStore "Ghost" (by decide)⟩

/-- C5: with the ProjectConfig record present, if zero global entries match the
effective workspace guid then the global source contributes the empty list and
the load completes without error; if two or more entries match, loadConnections
throws the duplicate-guid corruption error and the store — in particular every
project-local setting — is left unchanged. -/
theorem C5_global_lookup_cardinality (s : Store) (w : iWorkspaceConfiguration)
    (g : String) (hw : s.workspaceConfiguration = some w) :
    (matchingGlobalConfigs s (effectiveWorkspaceConfig w g) = [] →
      getConnectionsFromGlobalConfig s (effectiveWorkspaceConfig w g) = .ok [] ∧
      (loadConnections initialManagerState s g).1 = .ok ()) ∧
    (2 ≤ (matchingGlobalConfigs s (effectiveWorkspaceConfig w g)).length →
      (loadConnections initialManagerState s g).1 = .error .duplicateWorkspaceGuid ∧
      (loadConnections initialManagerState s g).2.2 = s) := by
  constructor
  · intro hmatch
    have hglob : getConnectionsFromGlobalConfig s (effectiveWorkspaceConfig w g) =
        .ok [] := by
      unfold getConnectionsFromGlobalConfig CurrentUserWorkspaceConfiguration
      rw [hmatch]
    refine ⟨hglob, ?_⟩
    rw [loadConnections_ok initialManagerState s g w [] hw hglob]
  · intro hlen
    cases hm : matchingGlobalConfigs s (effectiveWorkspaceConfig w g) with
    | nil => rw [hm] at hlen; simp at hlen
    | cons a t =>
        cases t with
        | nil => rw [hm] at hlen; simp at hlen
        | cons b t2 =>
            have hglob : getConnectionsFromGlobalConfig s
                (effectiveWorkspaceConfig w g) = .error .duplicateWorkspaceGuid := by
              unfold getConnectionsFromGlobalConfig CurrentUserWorkspaceConfiguration
              rw [hm]
            rw [loadConnections_globalErr initialManagerState s g w
              .duplicateWorkspaceGuid hw hglob]
            exact ⟨rfl, rfl⟩

/-- C5 witness store: ProjectConfig present with guid guid-1, and two global
entries sharing that guid. -/
def dupGuidStore : Store :=
  { baseStore with
      workspaceConfiguration :=
        some { workspaceGuid := some "guid-1", lastActiveConnection := none },
      userWorkspaceConfigurations :=
        [ { workspaceConfig :=
              { workspaceGuid := some "guid-1", lastActiveConnection := none },
            connections := [conAlpha] }
        , { workspaceConfig :=
              { workspaceGuid := some "guid-1", lastActiveConnection := none },
            connections := [conBeta] } ] }

/-- C5 witness: on `dupGuidStore` (two entries with the same guid) the load
throws the corruption error and the store is unchanged; the zero-match part of
the theorem holds vacuously there. -/
theorem C5_global_lookup_cardinality_witness :
    dupGuidStore.workspaceConfiguration =
      some { workspaceGuid := some "guid-1", lastActiveConnection := none } ∧
    ((matchingGlobalConfigs dupGuidStore
        (effectiveWorkspaceConfig
          { workspaceGuid := some "guid-1", lastActiveConnection := none }
          "guid-f") = [] →
      getConnectionsFromGlobalConfig dupGuidStore
        (effectiveWorkspaceConfig
          { workspaceGuid := some "guid-1", lastActiveConnection := none }
          "guid-f") = .ok [] ∧
      (loadConnections initialManagerState dupGuidStore "guid-f").1 = .ok ()) ∧
    (2 ≤ (matchingGlobalConfigs dupGuidStore
        (effectiveWorkspaceConfig
          { workspaceGuid := some "guid-1", lastActiveConnection := none }
          "guid-f")).length →
      (loadConnections initialManagerState dupGuidStore "guid-f").1 =
        .error .duplicateWorkspaceGuid ∧
      (loadConnections initialManagerState dupGuidStore "guid-f").2.2 =
        dupGuidStore)) :=
  ⟨rfl, C5_global_lookup_cardinality dupGuidStore
    { workspaceGuid := some "guid-1", lastActiveConnection := none }
    "guid-f" rfl⟩

/-- A displayName present in the base list is present in the list merged with
the default record. -/
theorem mem_names_mergeWithDefault {l1 : List iDatabricksConnection}
    {d : Option iDatabricksConnection} {n : Option String}
    (h : n ∈ l1.map (fun c => c.displayName)) :
    n ∈ (mergeWithDefault l1 d).map (fun c => c.displayName) := by
  cases d with
  | none => rw [mergeWithDefault_none]; exact h
  | some dc =>
      rw [mergeWithDefault_some]
      by_cases hmem : dc.displayName ∈ l1.map (fun x => x.displayName)
      · rw [if_pos hmem]; exact h
      · rw [if_neg hmem, List.map_append]
        exact List.mem_append_left _ h

/-- Filtering the default-merged list for a name that already occurs in the
base list gives the same records as filtering the base list: the default
record, if appended at all, carries a name that was NOT in the base list. -/
theorem mergeWithDefault_filter_name (l1 : List iDatabricksConnection)
    (d : Option iDatabricksConnection) (X : String)
    (hX1 : some X ∈ l1.map (fun c => c.displayName)) :
    (mergeWithDefault l1 d).filter (fun c => decide (c.displayName = some X)) =
      l1.filter (fun c => decide (c.displayName = some X)) := by
  cases d with
  | none => rw [mergeWithDefault_none]
  | some dc =>
      rw [mergeWithDefault_some]
      by_cases hmem : dc.displayName ∈ l1.map (fun x => x.displayName)
      · rw [if_pos hmem]
      · rw [if_neg hmem, List.filter_append]
        have hdc : [dc].filter (fun c => decide (c.displayName = some X)) = [] := by
          apply List.filter_eq_nil_iff.mpr
          intro a ha
          rw [List.mem_singleton.mp ha]
          simp only [decide_eq_true_eq]
          intro hEq
          exact hmem (hEq ▸ hX1)
        rw [hdc, List.append_nil]

/-- Filtering the full merge for a name that occurs in L1 returns exactly the
records of L1 with that name: the L3 contribution was filtered to names not yet
present. -/
theorem mergeConnections_filter_name (l1 : List iDatabricksConnection)
    (d : Option iDatabricksConnection) (l3 : List iDatabricksConnection)
    (X : String) (hX1 : some X ∈ l1.map (fun c => c.displayName)) :
    (mergeConnections l1 d l3).filter (fun c => decide (c.displayName = some X)) =
      l1.filter (fun c => decide (c.displayName = some X)) := by
  simp only [mergeConnections]
  rw [List.filter_append]
  have h2 : (l3.filter (fun x => decide (x.displayName ∉
      (mergeWithDefault l1 d).map (fun y => y.displayName)))).filter
        (fun c => decide (c.displayName = some X)) = [] := by
    apply List.filter_eq_nil_iff.mpr
    intro a ha
    have hpred := (List.mem_filter.mp ha).2
    simp only [decide_eq_true_eq] at hpred ⊢
    intro hEq
    exact hpred (hEq ▸ mem_names_mergeWithDefault hX1)
  rw [h2, List.append_nil]
  exact mergeWithDefault_filter_name l1 d X hX1

/-- C2: when a displayName X occurs both in the project-local list L1 and in
the global list L3, the records named X in the canonical list are exactly the
records of L1 named X — the record of L3 for X is discarded whole, no field of it
survives. -/
theorem C2_workspace_record_wins (s : Store) (w : iWorkspaceConfiguration)
    (g : String) (l3 : List iDatabricksConnection) (X : String)
    (hw : s.workspaceConfiguration = some w)
    (hg : getConnectionsFromGlobalConfig s (effectiveWorkspaceConfig w g) = .ok l3)
    (hX1 : some X ∈ (getConnectionsFromWorkspace s).map (fun c => c.displayName))
    (_hX3 : some X ∈ l3.map (fun c => c.displayName)) :
    ((loadConnections initialManagerState s g).2.1.connections).filter
        (fun c => decide (c.displayName = some X)) =
      (getConnectionsFromWorkspace s).filter
        (fun c => decide (c.displayName = some X)) := by
  rw [loadConnections_ok initialManagerState s g w l3 hw hg]
  exact mergeConnections_filter_name _ _ _ X hX1

/-- C2 witness store: Alpha appears project-locally (conAlpha) and in the
global entry (conAlphaVariant); Beta only globally. -/
def c2Store : Store :=
  { baseStore with
      workspaceConfiguration :=
        some { workspaceGuid := some "guid-1", lastActiveConnection := none },
      connections := some [conAlpha],
      userWorkspaceConfigurations :=
        [ { workspaceConfig :=
              { workspaceGuid := some "guid-1", lastActiveConnection := none },
            connections := [conAlphaVariant, conBeta] } ] }

/-- C2 witness: on `c2Store` the canonical record named Alpha is exactly the
project-local conAlpha, not the global conAlphaVariant. -/
theorem C2_workspace_record_wins_witness :
    c2Store.workspaceConfiguration =
      some { workspaceGuid := some "guid-1", lastActiveConnection := none } ∧
    getConnectionsFromGlobalConfig c2Store
      (effectiveWorkspaceConfig
        { workspaceGuid := some "guid-1", lastActiveConnection := none }
        "guid-f") = .ok [conAlphaVariant, conBeta] ∧
    some "Alpha" ∈ (getConnectionsFromWorkspace c2Store).map
      (fun c => c.displayName) ∧
    some "Alpha" ∈ ([conAlphaVariant, conBeta].map (fun c => c.displayName)) ∧
    ((loadConnections initialManagerState c2Store "guid-f").2.1.connections).filter
        (fun c => decide (c.displayName = some "Alpha")) =
      (getConnectionsFromWorkspace c2Store).filter
        (fun c => decide (c.displayName = some "Alpha")) :=
  ⟨rfl, by decide, by decide, by decide,
    C2_workspace_record_wins c2Store
      { workspaceGuid := some "guid-1", lastActiveConnection := none }
      "guid-f" [conAlphaVariant, conBeta] "Alpha" rfl (by decide) (by decide)
      (by decide)⟩

/-- Follows the words of claim C1: the canonical list is all of L1 in source
order, then D if its displayName is not already in L1, then those L3 records
in source order whose displayName is not already present. -/
def claimedCanonical (l1 : List iDatabricksConnection)
    (d : Option iDatabricksConnection) (l3 : List iDatabricksConnection) :
    List iDatabricksConnection :=
  let firstTwo := l1 ++ (match d with
    | some dc =>
        if dc.displayName ∈ l1.map (fun c => c.displayName) then [] else [dc]
    | none => [])
  firstTwo ++ l3.filter
    (fun x => decide (x.displayName ∉ firstTwo.map (fun c => c.displayName)))

/-- The default-merge step of the source equals the description in the claim. -/
theorem mergeWithDefault_eq_claimed (l1 : List iDatabricksConnection)
    (d : Option iDatabricksConnection) :
    mergeWithDefault l1 d = l1 ++ (match d with
      | some dc =>
          if dc.displayName ∈ l1.map (fun c => c.displayName) then [] else [dc]
      | none => []) := by
  cases d with
  | none => rw [mergeWithDefault_none]; simp
  | some dc =>
      rw [mergeWithDefault_some]
      by_cases hmem : dc.displayName ∈ l1.map (fun x => x.displayName)
      · rw [if_pos hmem]; simp [hmem]
      · rw [if_neg hmem]; simp [hmem]

/-- The merge of the source equals the description of the canonical list in the claim. -/
theorem mergeConnections_eq_claimed (l1 : List iDatabricksConnection)
    (d : Option iDatabricksConnection) (l3 : List iDatabricksConnection) :
    mergeConnections l1 d l3 = claimedCanonical l1 d l3 := by
  simp only [mergeConnections, claimedCanonical]
  rw [mergeWithDefault_eq_claimed]

/-- The default-merged list has pairwise-distinct names when the base list
does. -/
theorem mergeWithDefault_names_nodup (l1 : List iDatabricksConnection)
    (d : Option iDatabricksConnection)
    (h1 : (l1.map (fun c => c.displayName)).Nodup) :
    ((mergeWithDefault l1 d).map (fun c => c.displayName)).Nodup := by
  cases d with
  | none => rw [mergeWithDefault_none]; exact h1
  | some dc =>
      rw [mergeWithDefault_some]
      by_cases hmem : dc.displayName ∈ l1.map (fun x => x.displayName)
      · rw [if_pos hmem]; exact h1
      · rw [if_neg hmem, List.map_append]
        refine List.Nodup.append h1 (List.nodup_singleton _) ?_
        intro n hn1 hn2
        have hdn : n = dc.displayName := by simpa using hn2
        exact hmem (hdn ▸ hn1)

/-- The merged canonical list has pairwise-distinct names when L1 and L3 each
have pairwise-distinct names. -/
theorem mergeConnections_names_nodup (l1 : List iDatabricksConnection)
    (d : Option iDatabricksConnection) (l3 : List iDatabricksConnection)
    (h1 : (l1.map (fun c => c.displayName)).Nodup)
    (h3 : (l3.map (fun c => c.displayName)).Nodup) :
    ((mergeConnections l1 d l3).map (fun c => c.displayName)).Nodup := by
  simp only [mergeConnections]
  rw [List.map_append]
  refine List.Nodup.append (mergeWithDefault_names_nodup l1 d h1)
    (h3.sublist (List.Sublist.map _ (List.filter_sublist _))) ?_
  intro n hn1 hn2
  rcases List.mem_map.mp hn2 with ⟨x, hx, hxn⟩
  have hpred := (List.mem_filter.mp hx).2
  simp only [decide_eq_true_eq] at hpred
  exact hpred (hxn ▸ hn1)

/-- C1 (amended): provided the displayNames within L1 are pairwise distinct and
those within L3 are pairwise distinct — a premise the code itself never
enforces within a single source, see the counterexample — the canonical list
produced by loadConnections is ordered exactly as the claim describes and
contains no two records with the same displayName. -/
theorem C1_merge_order_and_uniqueness (s : Store) (w : iWorkspaceConfiguration)
    (g : String) (l3 : List iDatabricksConnection)
    (hw : s.workspaceConfiguration = some w)
    (hg : getConnectionsFromGlobalConfig s (effectiveWorkspaceConfig w g) = .ok l3)
    (h1 : ((getConnectionsFromWorkspace s).map (fun c => c.displayName)).Nodup)
    (h3 : (l3.map (fun c => c.displayName)).Nodup) :
    (loadConnections initialManagerState s g).2.1.connections =
      claimedCanonical (getConnectionsFromWorkspace s)
        (getDefaultConnectionFromWorkspace s) l3 ∧
    (((loadConnections initialManagerState s g).2.1.connections).map
        (fun c => c.displayName)).Nodup := by
  rw [loadConnections_ok initialManagerState s g w l3 hw hg]
  exact ⟨mergeConnections_eq_claimed _ _ _,
    mergeConnections_names_nodup _ _ _ h1 h3⟩

/-- C1 witness store: distinct-name L1 = [Alpha], a valid default block named
Default, and a global entry contributing [Alpha-variant, Beta]. -/
def c1Store : Store :=
  { baseStore with
      workspaceConfiguration :=
        some { workspaceGuid := some "guid-1", lastActiveConnection := none },
      connections := some [conAlpha],
      defaultDisplayName := some "Default",
      defaultCloudProvider := some "Azure",
      defaultApiRootUrl := some "https://adb-9.azuredatabricks.net",
      defaultPersonalAccessToken := some "patD",
      defaultLocalSyncFolder := some "/sync/default",
      userWorkspaceConfigurations :=
        [ { workspaceConfig :=
              { workspaceGuid := some "guid-1", lastActiveConnection := none },
            connections := [conAlphaVariant, conBeta] } ] }

/-- C1 witness: on `c1Store` the hypotheses hold and the canonical list is the
claimed one with pairwise-distinct names. -/
theorem C1_merge_order_and_uniqueness_witness :
    c1Store.workspaceConfiguration =
      some { workspaceGuid := some "guid-1", lastActiveConnection := none } ∧
    getConnectionsFromGlobalConfig c1Store
      (effectiveWorkspaceConfig
        { workspaceGuid := some "guid-1", lastActiveConnection := none }
        "guid-f") = .ok [conAlphaVariant, conBeta] ∧
    ((getConnectionsFromWorkspace c1Store).map (fun c => c.displayName)).Nodup ∧
    (([conAlphaVariant, conBeta].map (fun c => c.displayName))).Nodup ∧
    ((loadConnections initialManagerState c1Store "guid-f").2.1.connections =
      claimedCanonical (getConnectionsFromWorkspace c1Store)
        (getDefaultConnectionFromWorkspace c1Store) [conAlphaVariant, conBeta] ∧
    (((loadConnections initialManagerState c1Store "guid-f").2.1.connections).map
        (fun c => c.displayName)).Nodup) :=
  ⟨rfl, by decide, by decide, by decide,
    C1_merge_order_and_uniqueness c1Store
      { workspaceGuid := some "guid-1", lastActiveConnection := none }
      "guid-f" [conAlphaVariant, conBeta] rfl (by decide) (by decide) (by decide)⟩

/-- C10 (amended): the delete command invokes the remote API exactly when the
confirmation input is a NON-EMPTY string equal to the cluster name (the run-
together JS guard also aborts when name and confirmation are both empty), and
whenever the API is not invoked the abort is logged instead. -/
theorem C10_delete_guard (name : String) (confirm : Option String) :
    (clusterDelete name confirm).apiCalled =
      (decide (confirm = some name) && !(decide (name = ""))) ∧
    (clusterDelete name confirm).abortLogged =
      !(clusterDelete name confirm).apiCalled := by
  rcases confirm with _ | c
  · simp [clusterDelete]
  · by_cases hc : c = name
    · subst hc
      by_cases hn : c = ""
      · subst hn
        simp [clusterDelete]
      · simp [clusterDelete, hn]
    · simp [clusterDelete, hc, Ne.symm hc]

/-- C10 amended witness: deleting a cluster named Alpha with the exact
confirmation Alpha calls the API. -/
theorem C10_delete_guard_witness :
    (clusterDelete "Alpha" (some "Alpha")).apiCalled =
      (decide ((some "Alpha" : Option String) = some "Alpha") &&
        !(decide (( "Alpha" : String) = ""))) ∧
    (clusterDelete "Alpha" (some "Alpha")).abortLogged =
      !(clusterDelete "Alpha" (some "Alpha")).apiCalled :=
  C10_delete_guard "Alpha" (some "Alpha")

/-- After the persistence step, the project-local connection list is gone. -/
theorem getConnectionsFromWorkspace_after_update (s : Store)
    (wc : iWorkspaceConfiguration) (conns : List iDatabricksConnection) :
    getConnectionsFromWorkspace (updateUserWorkspaceConfigStore s wc conns) = [] := by
  simp [getConnectionsFromWorkspace, updateUserWorkspaceConfigStore]

/-- After the persistence step, the default-connection block is gone. -/
theorem getDefaultConnectionFromWorkspace_after_update (s : Store)
    (wc : iWorkspaceConfiguration) (conns : List iDatabricksConnection) :
    getDefaultConnectionFromWorkspace (updateUserWorkspaceConfigStore s wc conns) =
      none := by
  simp [getDefaultConnectionFromWorkspace, updateUserWorkspaceConfigStore]

/-- The persistence step does not touch the project-local ProjectConfig
setting. -/
theorem workspaceConfiguration_after_update (s : Store)
    (wc : iWorkspaceConfiguration) (conns : List iDatabricksConnection) :
    (updateUserWorkspaceConfigStore s wc conns).workspaceConfiguration =
      s.workspaceConfiguration := by
  simp [updateUserWorkspaceConfigStore]

/-- After the upsert, exactly the freshly written entry matches the current
guid. -/
theorem matchingGlobalConfigs_after_update (s : Store)
    (wc : iWorkspaceConfiguration) (conns : List iDatabricksConnection) :
    matchingGlobalConfigs (updateUserWorkspaceConfigStore s wc conns) wc =
      [CurrentWorkspaceConfiguration wc conns] := by
  unfold matchingGlobalConfigs updateUserWorkspaceConfigStore
  simp only []
  rw [List.filter_append]
  have hleft : (s.userWorkspaceConfigurations.filter
      (fun x => decide (x.workspaceConfig.workspaceGuid ≠ wc.workspaceGuid))).filter
      (fun x => decide (x.workspaceConfig.workspaceGuid = wc.workspaceGuid)) = [] := by
    apply List.filter_eq_nil_iff.mpr
    intro a ha
    have hne := (List.mem_filter.mp ha).2
    simp only [decide_eq_true_eq] at hne ⊢
    exact hne
  rw [hleft]
  simp [CurrentWorkspaceConfiguration]

/-- After the upsert, the global lookup for the current guid returns exactly
the persisted connections, provided they all pass validation. -/
theorem getConnectionsFromGlobalConfig_after_update (s : Store)
    (wc : iWorkspaceConfiguration) (conns : List iDatabricksConnection)
    (hval : ∀ c ∈ conns, validate c = true) :
    getConnectionsFromGlobalConfig (updateUserWorkspaceConfigStore s wc conns) wc =
      .ok conns := by
  unfold getConnectionsFromGlobalConfig CurrentUserWorkspaceConfiguration
  rw [matchingGlobalConfigs_after_update]
  simp only [CurrentWorkspaceConfiguration]
  rw [List.filter_eq_self.mpr hval]

/-- C7 (amended): when the project-local ProjectConfig already carries a
persisted projectGuid, re-running loadConnections after a successful
load-and-persist cycle succeeds and yields the SAME canonical list, now
sourced entirely from the global store entry for that guid: the project-local
list and default block read as empty/absent and the global lookup returns
exactly the canonical list of the first run.  (The counterexample shows the claim
fails for stores where the guid was freshly generated during the first run,
because loadConnections never persists the new guid project-locally.) -/
theorem C7_reload_idempotent_with_guid (s : Store) (w : iWorkspaceConfiguration)
    (gid g1 g2 : String)
    (hw : s.workspaceConfiguration = some w)
    (hgid : w.workspaceGuid = some gid)
    (h1 : (loadConnections initialManagerState s g1).1 = .ok ()) :
    (loadConnections initialManagerState
        ((loadConnections initialManagerState s g1).2.2) g2).1 = .ok () ∧
    (loadConnections initialManagerState
        ((loadConnections initialManagerState s g1).2.2) g2).2.1.connections =
      (loadConnections initialManagerState s g1).2.1.connections ∧
    getConnectionsFromWorkspace
      ((loadConnections initialManagerState s g1).2.2) = [] ∧
    getDefaultConnectionFromWorkspace
      ((loadConnections initialManagerState s g1).2.2) = none ∧
    getConnectionsFromGlobalConfig
        ((loadConnections initialManagerState s g1).2.2) w =
      .ok ((loadConnections initialManagerState s g1).2.1.connections) := by
  have heff1 : effectiveWorkspaceConfig w g1 = w :=
    effectiveWorkspaceConfig_of_set w gid g1 hgid
  have heff2 : effectiveWorkspaceConfig w g2 = w :=
    effectiveWorkspaceConfig_of_set w gid g2 hgid
  cases hg : getConnectionsFromGlobalConfig s (effectiveWorkspaceConfig w g1) with
  | error e =>
      rw [loadConnections_globalErr initialManagerState s g1 w e hw hg] at h1
      cases h1
  | ok l3 =>
      have hrun1 := loadConnections_ok initialManagerState s g1 w l3 hw hg
      rw [heff1] at hrun1
      have hval : ∀ c ∈ mergeConnections (getConnectionsFromWorkspace s)
          (getDefaultConnectionFromWorkspace s) l3, validate c = true :=
        fun c hc => mergeConnections_validate hg hc
      have hs1 : (loadConnections initialManagerState s g1).2.2 =
          updateUserWorkspaceConfigStore s w
            (mergeConnections (getConnectionsFromWorkspace s)
              (getDefaultConnectionFromWorkspace s) l3) := by
        rw [hrun1]
      have hcon1 : (loadConnections initialManagerState s g1).2.1.connections =
          mergeConnections (getConnectionsFromWorkspace s)
            (getDefaultConnectionFromWorkspace s) l3 := by
        rw [hrun1]
      have hwc1 : ((loadConnections initialManagerState s g1).2.2).workspaceConfiguration =
          some w := by
        rw [hs1, workspaceConfiguration_after_update, hw]
      have hg2 : getConnectionsFromGlobalConfig
          ((loadConnections initialManagerState s g1).2.2)
          (effectiveWorkspaceConfig w g2) =
          .ok (mergeConnections (getConnectionsFromWorkspace s)
            (getDefaultConnectionFromWorkspace s) l3) := by
        rw [heff2, hs1]
        exact getConnectionsFromGlobalConfig_after_update s w _ hval
      have hrun2 := loadConnections_ok initialManagerState
        ((loadConnections initialManagerState s g1).2.2) g2 w
        (mergeConnections (getConnectionsFromWorkspace s)
          (getDefaultConnectionFromWorkspace s) l3) hwc1 hg2
      refine ⟨?_, ?_, ?_, ?_, ?_⟩
      · rw [hrun2]
      · rw [hrun2, hcon1]
        simp only [hs1, getConnectionsFromWorkspace_after_update,
          getDefaultConnectionFromWorkspace_after_update]
        exact mergeConnections_nil_none _
      · rw [hs1]
        exact getConnectionsFromWorkspace_after_update s w _
      · rw [hs1]
        exact getDefaultConnectionFromWorkspace_after_update s w _
      · rw [hcon1, hs1]
        exact getConnectionsFromGlobalConfig_after_update s w _ hval

/-- C7 amended witness store: guid already persisted, one project-local record
and one global entry for the guid. -/
def c7SettledStore : Store :=
  { baseStore with
      workspaceConfiguration :=
        some { workspaceGuid := some "guid-1", lastActiveConnection := none },
      connections := some [conAlpha],
      userWorkspaceConfigurations :=
        [ { workspaceConfig :=
              { workspaceGuid := some "guid-1", lastActiveConnection := none },
            connections := [conBeta] } ] }

/-- C7 amended witness: on `c7SettledStore` the second run reproduces the
canonical list [Alpha, Beta] of the first run from the global store alone. -/
theorem C7_reload_idempotent_with_guid_witness :
    c7SettledStore.workspaceConfiguration =
      some { workspaceGuid := some "guid-1", lastActiveConnection := none } ∧
    ({ workspaceGuid := some "guid-1",
       lastActiveConnection := none : iWorkspaceConfiguration }).workspaceGuid =
      some "guid-1" ∧
    (loadConnections initialManagerState c7SettledStore "guid-a").1 = .ok () ∧
    ((loadConnections initialManagerState
        ((loadConnections initialManagerState c7SettledStore "guid-a").2.2)
        "guid-b").1 = .ok () ∧
    (loadConnections initialManagerState
        ((loadConnections initialManagerState c7SettledStore "guid-a").2.2)
        "guid-b").2.1.connections =
      (loadConnections initialManagerState c7SettledStore "guid-a").2.1.connections ∧
    getConnectionsFromWorkspace
      ((loadConnections initialManagerState c7SettledStore "guid-a").2.2) = [] ∧
    getDefaultConnectionFromWorkspace
      ((loadConnections initialManagerState c7SettledStore "guid-a").2.2) = none ∧
    getConnectionsFromGlobalConfig
        ((loadConnections initialManagerState c7SettledStore "guid-a").2.2)
        { workspaceGuid := some "guid-1", lastActiveConnection := none } =
      .ok ((loadConnections initialManagerState c7SettledStore "guid-a").2.1.connections)) :=
  ⟨rfl, rfl, by decide,
    C7_reload_idempotent_with_guid c7SettledStore
      { workspaceGuid := some "guid-1", lastActiveConnection := none }
      "guid-1" "guid-a" "guid-b" rfl rfl (by decide)⟩

end Databricks
